import Mathlib

/-!
Shallow embedding of the taskcircuit backend (`src/server.js` together with
`src/prisma/schema.prisma`) and proofs about its route handlers.

Conventions of the embedding:
* A JSON body field that may be absent (`undefined` in JS) is an `Option`.
* JS truthiness on strings (`!name`, `status || 'todo'`) is modelled by
  testing for the empty string; an absent field and an empty string are the
  two falsy cases that occur.
* The `progress` body field may arrive as any JSON value; the handler only
  ever consults `parseInt(progress, 10)` together with a range check, so the
  field is modelled by its parse outcome: `Option Int`, `none` standing for
  `NaN`.
* `bcrypt` and `jsonwebtoken` are external collaborators: password hashing /
  comparison and token verification enter as function parameters.
* The persistence engine is a `Store` record of lists; `findUnique` is
  `List.find?` on the id, `update` maps over the list, `delete` filters.
  `prisma.board.delete` cascades to the board's tasks, per
  `onDelete: Cascade` on `Task.board` in `schema.prisma`.
* A handler returns the HTTP status it sends and the store it leaves behind.
-/

namespace TaskCircuit

/-- A row of the `User` model (fields the handlers consult). -/
structure User where
  id : String
  email : String
  passwordHash : String
  deriving Repr, DecidableEq

/-- A row of the `Board` model. -/
structure Board where
  id : String
  name : String
  userId : String
  deriving Repr, DecidableEq

/-- A row of the `Task` model. Dates are opaque strings (`new Date(s)` is
modelled as the string `s` itself; a falsy argument stores `null`). -/
structure Task where
  id : String
  title : String
  description : Option String
  status : String
  startDate : Option String
  estimatedFinishDate : Option String
  reminderDateTime : Option String
  progress : Int
  boardId : String
  deriving Repr, DecidableEq

/-- The backing relational store. -/
structure Store where
  users : List User
  boards : List Board
  tasks : List Task
  deriving Repr, DecidableEq

/-- JS string truthiness for an optional body field: `undefined` and `""`
are falsy. -/
def strFalsy : Option String → Bool
  | none => true
  | some s => s = ""

/-- `x ? new Date(x) : null` for an optional date field at task creation. -/
def jsDate : Option String → Option String
  | none => none
  | some s => if s = "" then none else some s

/-- The parse outcome of the `progress` body field: `parseInt(v, 10)`,
`none` standing for `NaN`. -/
abbrev ProgVal := Option Int

/-- The valid task statuses (`validStatuses` in `server.js`). -/
def validStatuses : List String := ["todo", "inprogress", "done"]

/-! ## Authentication (`POST /api/auth/signup`, `POST /api/auth/login`,
`authenticateToken`) -/

/-- The four password strength rules checked by the signup route:
length at least 8, an uppercase ASCII letter, a lowercase ASCII letter and
a digit (the JS regexes `[A-Z]`, `[a-z]`, `[0-9]`). -/
def strongPassword (p : String) : Bool :=
  decide (8 ≤ p.length) && p.data.any (fun c => 'A' ≤ c && c ≤ 'Z')
    && p.data.any (fun c => 'a' ≤ c && c ≤ 'z')
    && p.data.any (fun c => '0' ≤ c && c ≤ '9')

/-- `POST /api/auth/signup`. `hash` stands for `bcrypt.hash` with the fixed
salt rounds; `newId` is the id the store assigns to the created row.
Returns the HTTP status and the store after the request. -/
def signup (hash : String → String) (st : Store)
    (email password : Option String) (newId : String) : Nat × Store :=
  if strFalsy email || strFalsy password then (400, st)
  else
    let e := email.getD ""
    let p := password.getD ""
    if p.length < 8 then (400, st)
    else if ¬ p.data.any (fun c => 'A' ≤ c && c ≤ 'Z') then (400, st)
    else if ¬ p.data.any (fun c => 'a' ≤ c && c ≤ 'z') then (400, st)
    else if ¬ p.data.any (fun c => '0' ≤ c && c ≤ '9') then (400, st)
    else if (st.users.find? (fun u => u.email = e)).isSome then (400, st)
    else (201, { st with users := st.users ++ [⟨newId, e, hash p⟩] })

/-- `POST /api/auth/login`. `compare` stands for `bcrypt.compare`.
Only the HTTP status matters to the spec (no store change). -/
def login (compare : String → String → Bool) (st : Store)
    (email password : Option String) : Nat :=
  if strFalsy email || strFalsy password then 400
  else
    match st.users.find? (fun u => u.email = email.getD "") with
    | none => 401
    | some u =>
      if u.passwordHash = "" then 401
      else if compare (password.getD "") u.passwordHash then 200 else 401

/-- The JWT claims carried by a bearer token. -/
structure Payload where
  userId : String
  email : String
  deriving Repr, DecidableEq

/-- The token extracted from the `Authorization` header:
`authHeader && authHeader.split(' ')[1]`, then the `token == null` check.
`none` means the middleware answers 401. An empty header value is falsy in
JS, so the `&&` yields the header itself and `"" == null` is false: the
empty string proceeds to verification. -/
def tokenOf : Option String → Option String
  | none => none
  | some h => if h = "" then some "" else (h.splitOn " ")[1]?

/-- The `authenticateToken` middleware. `verify` stands for `jwt.verify`
with the server secret: `none` when the signature does not verify or the
token has expired. -/
def authenticateToken (verify : String → Option Payload)
    (authHeader : Option String) : Except Nat Payload :=
  match tokenOf authHeader with
  | none => .error 401
  | some t =>
    match verify t with
    | none => .error 403
    | some p => .ok p

/-- A bearer-authenticated route: the middleware runs first and the handler
(the delegated store operation) only runs on `.ok`. -/
def withAuth (verify : String → Option Payload) (authHeader : Option String)
    (handler : Payload → Store → Nat × Store) (st : Store) : Nat × Store :=
  match authenticateToken verify authHeader with
  | .error c => (c, st)
  | .ok p => handler p st

/-! ## Board routes -/

/-- `GET /api/boards`: the requester's boards. Read-only. -/
def getBoards (st : Store) (userId : String) : Nat × List Board :=
  (200, st.boards.filter (fun b => b.userId = userId))

/-- `POST /api/boards`. -/
def createBoard (st : Store) (userId : String) (name : Option String)
    (newId : String) : Nat × Store :=
  if strFalsy name then (400, st)
  else (201, { st with boards := st.boards ++ [⟨newId, name.getD "", userId⟩] })

/-- `PUT /api/boards/:boardId`. -/
def updateBoard (st : Store) (userId boardId : String)
    (name : Option String) : Nat × Store :=
  if strFalsy name then (400, st)
  else
    match st.boards.find? (fun b => b.id = boardId) with
    | none => (404, st)
    | some b =>
      if b.userId = userId then
        (200, { st with boards := (st.boards.map
          (fun b2 => if b2.id = boardId then { b2 with name := name.getD "" } else b2)) })
      else (404, st)

/-- `DELETE /api/boards/:boardId`. `prisma.board.delete` cascades to the
board's tasks (`onDelete: Cascade` on `Task.board` in `schema.prisma`). -/
def deleteBoard (st : Store) (userId boardId : String) : Nat × Store :=
  match st.boards.find? (fun b => b.id = boardId) with
  | none => (404, st)
  | some b =>
    if b.userId = userId then
      (204, { st with boards := st.boards.filter (fun b2 => ¬ b2.id = boardId),
                      tasks := st.tasks.filter (fun t => ¬ t.boardId = boardId) })
    else (404, st)

/-! ## Task routes -/

/-- `GET /api/boards/:boardId/tasks`. Read-only. -/
def getTasks (st : Store) (userId boardId : String) : Nat × List Task :=
  match st.boards.find? (fun b => b.id = boardId) with
  | none => (404, [])
  | some b =>
    if b.userId = userId then (200, st.tasks.filter (fun t => t.boardId = boardId))
    else (403, [])

/-- The body of `POST /api/boards/:boardId/tasks`. -/
structure TaskCreateReq where
  title : Option String
  description : Option String
  status : Option String
  startDate : Option String
  estimatedFinishDate : Option String
  reminderDateTime : Option String
  progress : Option ProgVal
  deriving Repr, DecidableEq

/-- `status || 'todo'` (JS `||`: an absent or empty status falls back). -/
def createStatus : Option String → String
  | none => "todo"
  | some s => if s = "" then "todo" else s

/-- The `taskProgress` computation at task creation: forced to 100 for
`done` and 0 for `todo`; otherwise `parseInt` of the provided value if it
is a number in `[0,100]`, else 0 (`progress ?? 0` parses to 0 when the
field is absent). -/
def createProg (taskStatus : String) (progress : Option ProgVal) : Int :=
  if taskStatus = "done" then 100
  else if taskStatus = "todo" then 0
  else
    match progress with
    | none => 0
    | some none => 0
    | some (some n) => if 0 ≤ n ∧ n ≤ 100 then n else 0

/-- `POST /api/boards/:boardId/tasks`. -/
def createTask (st : Store) (userId boardId : String) (req : TaskCreateReq)
    (newId : String) : Nat × Store :=
  if strFalsy req.title then (400, st)
  else
    let taskStatus := createStatus req.status
    if ¬ validStatuses.contains taskStatus then (400, st)
    else
      let taskProgress := createProg taskStatus req.progress
      match st.boards.find? (fun b => b.id = boardId) with
      | none => (404, st)
      | some b =>
        if b.userId = userId then
          (201, { st with tasks := st.tasks ++
            [{ id := newId, title := req.title.getD "",
               description := req.description, status := taskStatus,
               startDate := jsDate req.startDate,
               estimatedFinishDate := jsDate req.estimatedFinishDate,
               reminderDateTime := jsDate req.reminderDateTime,
               progress := taskProgress, boardId := boardId }] })
        else (403, st)

/-- The body of `PUT /api/tasks/:taskId`. An outer `none` is an absent
field (`!== undefined` fails); for the date fields the inner `Option` is
the stored value (`x ? new Date(x) : null`). -/
structure TaskUpdateReq where
  title : Option String
  description : Option (Option String)
  status : Option String
  startDate : Option String
  estimatedFinishDate : Option String
  reminderDateTime : Option String
  progress : Option ProgVal
  deriving Repr, DecidableEq

/-- The `updateData` object accumulated by the task-update route. -/
structure UpdateData where
  title : Option String
  description : Option (Option String)
  startDate : Option (Option String)
  estimatedFinishDate : Option (Option String)
  reminderDateTime : Option (Option String)
  status : Option String
  progress : Option Int
  deriving Repr, DecidableEq

/-- `Object.keys(updateData).length === 0`. -/
def UpdateData.isEmpty (d : UpdateData) : Bool :=
  d.title.isNone && d.description.isNone && d.startDate.isNone
    && d.estimatedFinishDate.isNone && d.reminderDateTime.isNone
    && d.status.isNone && d.progress.isNone

/-- The non-status, non-progress part of `updateData`: the five plain
fields copied from the body when present (`!== undefined`), the dates
going through `x ? new Date(x) : null`. -/
def baseUpd (req : TaskUpdateReq) : UpdateData :=
  { title := req.title, description := req.description,
    startDate := req.startDate.map (fun s => if s = "" then none else some s),
    estimatedFinishDate :=
      req.estimatedFinishDate.map (fun s => if s = "" then none else some s),
    reminderDateTime :=
      req.reminderDateTime.map (fun s => if s = "" then none else some s),
    status := none, progress := none }

/-- Builds `updateData` from the request body, or the 400 the route sends
while validating (`Invalid status value.` / `Invalid progress value.`). -/
def mkUpdateData (req : TaskUpdateReq) : Except Nat UpdateData :=
  match req.status with
  | some s =>
    if ¬ validStatuses.contains s then .error 400
    else if s = "todo" then
      .ok { baseUpd req with status := some s, progress := some 0 }
    else if s = "done" then
      .ok { baseUpd req with status := some s, progress := some 100 }
    else
      match req.progress with
      | none => .ok { baseUpd req with status := some s, progress := some 25 }
      | some none => .ok { baseUpd req with status := some s, progress := some 25 }
      | some (some n) =>
        .ok { baseUpd req with status := some s,
                               progress := some (if 0 ≤ n ∧ n ≤ 100 then n else 25) }
  | none =>
    match req.progress with
    | none => .ok (baseUpd req)
    | some none => .error 400
    | some (some n) =>
      if 0 ≤ n ∧ n ≤ 100 then .ok { baseUpd req with progress := some n }
      else .error 400

/-- Applies `updateData` to a stored task row (`prisma.task.update`). -/
def applyUpd (d : UpdateData) (t : Task) : Task :=
  { t with
    title := d.title.getD t.title,
    description := d.description.getD t.description,
    startDate := d.startDate.getD t.startDate,
    estimatedFinishDate := d.estimatedFinishDate.getD t.estimatedFinishDate,
    reminderDateTime := d.reminderDateTime.getD t.reminderDateTime,
    status := d.status.getD t.status,
    progress := d.progress.getD t.progress }

/-- The silent-drop rule at `PUT /api/tasks/:taskId`: a progress-only
change while the current status is not `inprogress` is removed from
`updateData`. -/
def dropProg (d : UpdateData) (current : Task) : UpdateData :=
  if d.progress.isSome && d.status.isNone && ¬ current.status = "inprogress"
  then { d with progress := none } else d

/-- `PUT /api/tasks/:taskId`. A task whose board row is missing makes
`task.board.userId` throw in JS; the catch block answers 500. -/
def updateTask (st : Store) (userId taskId : String)
    (req : TaskUpdateReq) : Nat × Store :=
  match mkUpdateData req with
  | .error c => (c, st)
  | .ok d =>
    if d.isEmpty then (400, st)
    else
      match st.tasks.find? (fun t => t.id = taskId) with
      | none => (404, st)
      | some t =>
        match st.boards.find? (fun b => b.id = t.boardId) with
        | none => (500, st)
        | some b =>
          if b.userId = userId then
            let d2 := dropProg d t
            if d2.isEmpty then (400, st)
            else
              (200, { st with tasks := (st.tasks.map
                (fun t2 => if t2.id = taskId then applyUpd d2 t2 else t2)) })
          else (403, st)

/-- `DELETE /api/tasks/:taskId`. -/
def deleteTask (st : Store) (userId taskId : String) : Nat × Store :=
  match st.tasks.find? (fun t => t.id = taskId) with
  | none => (404, st)
  | some t =>
    match st.boards.find? (fun b => b.id = t.boardId) with
    | none => (500, st)
    | some b =>
      if b.userId = userId then
        (204, { st with tasks := st.tasks.filter (fun t2 => ¬ t2.id = taskId) })
      else (403, st)

/-- The task status/progress invariant of the spec: progress in `[0,100]`,
`todo` forces 0 and `done` forces 100. -/
def taskInv (t : Task) : Prop :=
  0 ≤ t.progress ∧ t.progress ≤ 100 ∧
    (t.status = "todo" → t.progress = 0) ∧
    (t.status = "done" → t.progress = 100)

instance (t : Task) : Decidable (taskInv t) := by
  unfold taskInv; infer_instance

/-! ## Concrete fixtures used by witnesses and counterexamples -/

/-- A password-account user. -/
def userW1 : User := ⟨"u1", "a@b.c", "HASH1"⟩

/-- An OAuth-only user: empty password hash, as created by the Google
strategy (`passwordHash: ''`). -/
def userW2 : User := ⟨"u2", "o@b.c", ""⟩

/-- A board of `userW1`. -/
def boardW1 : Board := ⟨"b1", "Home", "u1"⟩

/-- A board of `userW2`. -/
def boardW2 : Board := ⟨"b2", "Work", "u2"⟩

/-- A `todo` task on `boardW1`. -/
def taskW1 : Task := ⟨"t1", "Buy milk", none, "todo", none, none, none, 0, "b1"⟩

/-- An `inprogress` task on `boardW2`. -/
def taskW2 : Task := ⟨"t2", "Ship", none, "inprogress", none, none, none, 40, "b2"⟩

/-- The store holding the fixtures above. -/
def stW : Store := ⟨[userW1, userW2], [boardW1, boardW2], [taskW1, taskW2]⟩

/-! ## Helper lemmas -/

/-- `applyUpd` never touches the id column. -/
theorem applyUpd_id (d : UpdateData) (t : Task) : (applyUpd d t).id = t.id := rfl

/-- Finding by id after an id-preserving per-row update returns the
updated row. -/
theorem find?_map_upd {l : List Task} {tid : String} {g : Task → Task} {t : Task}
    (hg : ∀ x, (g x).id = x.id)
    (h : l.find? (fun x => x.id = tid) = some t) :
    (l.map (fun x => if x.id = tid then g x else x)).find?
      (fun x => x.id = tid) = some (g t) := by
  induction l with
  | nil => simp at h
  | cons a l ih =>
    simp only [List.map_cons]
    by_cases ha : a.id = tid
    · rw [List.find?_cons_of_pos _ (by simp [ha])] at h
      rw [if_pos ha, List.find?_cons_of_pos _ (by simp [hg, ha])]
      simp only [Option.some.injEq] at h
      rw [h]
    · rw [List.find?_cons_of_neg _ (by simp [ha])] at h
      rw [if_neg ha, List.find?_cons_of_neg _ (by simp [ha])]
      exact ih h

/-- The only validation failure `mkUpdateData` produces is a 400. -/
theorem mkUpdateData_error {req : TaskUpdateReq} {c : Nat}
    (h : mkUpdateData req = .error c) : c = 400 := by
  unfold mkUpdateData at h
  rcases hs : req.status with _ | s <;> rw [hs] at h <;>
    rcases hp : req.progress with _ | (_ | n) <;> rw [hp] at h <;>
    simp only at h <;> (try split at h) <;> (try split at h) <;>
    (try split at h) <;> simp_all

/-- The success path of the task-update route, as one equation. -/
theorem updateTask_ok {st : Store} {u tid : String} {req : TaskUpdateReq}
    {d : UpdateData} {t : Task} {b : Board}
    (hmk : mkUpdateData req = .ok d)
    (hne : d.isEmpty = false)
    (ht : st.tasks.find? (fun x => x.id = tid) = some t)
    (hb : st.boards.find? (fun x => x.id = t.boardId) = some b)
    (hown : b.userId = u)
    (hne2 : (dropProg d t).isEmpty = false) :
    updateTask st u tid req =
      (200, { st with tasks := (st.tasks.map
        (fun t2 => if t2.id = tid then applyUpd (dropProg d t) t2 else t2)) }) := by
  unfold updateTask
  rw [hmk]
  simp only [hne, Bool.false_eq_true, if_false, ht, hb, hown, hne2, if_true]

/-- The success path of the task-create route, as one equation. -/
theorem createTask_ok {st : Store} {u bid nid : String} {req : TaskCreateReq}
    {b : Board}
    (htitle : strFalsy req.title = false)
    (hvalid : validStatuses.contains (createStatus req.status) = true)
    (hb : st.boards.find? (fun x => x.id = bid) = some b)
    (hown : b.userId = u) :
    createTask st u bid req nid =
      (201, { st with tasks := st.tasks ++
        [{ id := nid, title := req.title.getD "", description := req.description,
           status := createStatus req.status,
           startDate := jsDate req.startDate,
           estimatedFinishDate := jsDate req.estimatedFinishDate,
           reminderDateTime := jsDate req.reminderDateTime,
           progress := createProg (createStatus req.status) req.progress,
           boardId := bid }] }) := by
  unfold createTask
  simp only [htitle, Bool.false_eq_true, if_false, hvalid, not_true,
    hb, hown, if_true]

/-- The progress a created task gets satisfies the status/progress
invariant for its status. -/
theorem createProg_inv (s : String) (p : Option ProgVal) :
    0 ≤ createProg s p ∧ createProg s p ≤ 100 ∧
      (s = "todo" → createProg s p = 0) ∧
      (s = "done" → createProg s p = 100) := by
  unfold createProg
  by_cases hd : s = "done"
  · simp [hd]
  · by_cases ht : s = "todo"
    · simp [hd, ht]
    · rcases p with _ | (_ | n) <;> simp [hd, ht]
      split <;> omega

/-- A task satisfying the status/progress invariant still satisfies it
after a validated update is applied, silent-drop rule included. -/
theorem applyUpd_dropProg_inv (req : TaskUpdateReq) (d : UpdateData) (t : Task)
    (hmk : mkUpdateData req = .ok d) (ht : taskInv t) :
    taskInv (applyUpd (dropProg d t) t) := by
  obtain ⟨h0, h1, h2, h3⟩ := ht
  unfold mkUpdateData at hmk
  rcases hs : req.status with _ | s <;> rw [hs] at hmk <;> simp only at hmk
  · rcases hp : req.progress with _ | (_ | n) <;> rw [hp] at hmk <;>
      simp only at hmk
    · injection hmk with hd
      subst hd
      simp only [taskInv, dropProg, applyUpd, baseUpd]
      simp only [Option.isSome_none, Bool.false_and, Bool.false_eq_true,
        if_false, Option.getD_none]
      exact ⟨h0, h1, h2, h3⟩
    · exact (Except.noConfusion hmk)
    · split at hmk
      · injection hmk with hd
        subst hd
        rename_i hn
        by_cases hcur : t.status = "inprogress"
        · simp only [taskInv, dropProg, applyUpd, baseUpd, hcur]
          simp
          omega
        · simp only [taskInv, dropProg, applyUpd, baseUpd]
          simp [hcur]
          exact ⟨h0, h1, h2, h3⟩
      · exact (Except.noConfusion hmk)
  · split at hmk
    · exact (Except.noConfusion hmk)
    · split at hmk
      · rename_i htodo
        injection hmk with hd
        subst hd
        simp [taskInv, dropProg, applyUpd, baseUpd, htodo]
      · split at hmk
        · rename_i htodo hdone
          injection hmk with hd
          subst hd
          simp [taskInv, dropProg, applyUpd, baseUpd, hdone]
        · rename_i htodo hdone
          rcases hp : req.progress with _ | (_ | n) <;> rw [hp] at hmk <;>
              simp only at hmk <;> injection hmk with hd <;> subst hd
          · simp [taskInv, dropProg, applyUpd, baseUpd, htodo, hdone]
          · simp [taskInv, dropProg, applyUpd, baseUpd, htodo, hdone]
          · simp [taskInv, dropProg, applyUpd, baseUpd, htodo, hdone]
            split <;> omega

/-! ## Claims -/

/-- C3: a signup request with email present and not in use is rejected
with 400 when the password fails any of the four strength rules and is
accepted with 201 exactly when all four hold; an absent password is also
rejected with 400. -/
theorem claim3_signup_password_policy (hash : String → String) (st : Store)
    (e p newId : String) (he : ¬ e = "")
    (hfree : st.users.find? (fun u => u.email = e) = none) :
    (signup hash st (some e) (some p) newId).1 =
      (if strongPassword p then 201 else 400) ∧
    (signup hash st (some e) none newId).1 = 400 := by
  refine ⟨?_, by simp [signup, strFalsy]⟩
  by_cases hp0 : p = ""
  · subst hp0
    have hsp : strongPassword "" = false := by decide
    simp [signup, strFalsy, hsp, he]
  · unfold signup strongPassword
    have h1 : (strFalsy (some e) || strFalsy (some p)) = false := by
      simp [strFalsy, he, hp0]
    rw [h1]
    simp only [Bool.false_eq_true, if_false, Option.getD_some, hfree,
      Option.isSome_none]
    by_cases h2 : p.length < 8
    · have h8 : decide (8 ≤ p.length) = false :=
        decide_eq_false_iff_not.mpr (Nat.not_le.mpr h2)
      simp [h2, h8]
    · have h8 : decide (8 ≤ p.length) = true :=
        decide_eq_true (Nat.not_lt.mp h2)
      rcases Bool.eq_false_or_eq_true
          (p.data.any (fun c => 'A' ≤ c && c ≤ 'Z')) with h3 | h3 <;>
        rcases Bool.eq_false_or_eq_true
          (p.data.any (fun c => 'a' ≤ c && c ≤ 'z')) with h4 | h4 <;>
        rcases Bool.eq_false_or_eq_true
          (p.data.any (fun c => '0' ≤ c && c ≤ '9')) with h5 | h5 <;>
        simp [h2, h8, h3, h4, h5]

/-- C3 witness: a concrete signup on the fixture store. -/
theorem claim3_witness :
    (signup (fun _ => "H") stW (some "n@b.c") (some "Passw0rd") "u9").1 =
      (if strongPassword "Passw0rd" then 201 else 400) ∧
    (signup (fun _ => "H") stW (some "n@b.c") none "u9").1 = 400 :=
  claim3_signup_password_policy (fun _ => "H") stW "n@b.c" "Passw0rd" "u9"
    (by decide) (by decide)

/-- C1: a successfully created task satisfies the status/progress
invariant (progress in `[0,100]`, `todo` forces 0, `done` forces 100),
and a successful task update keeps every stored task satisfying it, given
that the stored tasks satisfied it before and ids are unique (the `@id`
primary key of the schema). -/
theorem claim1_status_progress_invariant (st st1 st2 : Store)
    (u bid tid nid : String) (creq : TaskCreateReq) (ureq : TaskUpdateReq) :
    (createTask st u bid creq nid = (201, st1) →
      ∀ a ∈ st1.tasks, ¬ a ∈ st.tasks → taskInv a) ∧
    ((∀ a ∈ st.tasks, taskInv a) →
      (∀ a ∈ st.tasks, ∀ a2 ∈ st.tasks, a.id = a2.id → a = a2) →
      updateTask st u tid ureq = (200, st2) →
      ∀ a ∈ st2.tasks, taskInv a) := by
  constructor
  · intro h a ha hna
    unfold createTask at h
    split at h
    · simp at h
    · split at h
      · simp only at h
        split at h <;> simp at h
      · split at h
        · simp only at h
          split at h
          · simp at h
          · rw [Prod.mk.injEq] at h
            rw [← h.2] at ha
            simp only [List.mem_append, List.mem_singleton] at ha
            rcases ha with ha | ha
            · exact absurd ha hna
            · subst ha
              obtain ⟨g0, g1, g2, g3⟩ :=
                createProg_inv (createStatus creq.status) creq.progress
              exact ⟨g0, g1, g2, g3⟩
        · simp only at h
          split at h <;> simp at h
  · intro hinv huniq h a ha
    unfold updateTask at h
    split at h
    · rename_i c heq
      have hc := mkUpdateData_error heq
      subst hc
      simp at h
    · rename_i d heq
      split at h
      · simp at h
      · split at h
        · simp at h
        · rename_i t0 heqt
          split at h
          · simp at h
          · rename_i b heqb
            split at h
            · simp only at h
              split at h
              · simp at h
              · rw [Prod.mk.injEq] at h
                rw [← h.2] at ha
                simp only [List.mem_map] at ha
                obtain ⟨x, hx, hax⟩ := ha
                by_cases hid : x.id = tid
                · rw [if_pos hid] at hax
                  have ht0mem : t0 ∈ st.tasks := List.mem_of_find?_eq_some heqt
                  have ht0id : t0.id = tid := by
                    have := List.find?_some heqt
                    exact of_decide_eq_true this
                  have hxt0 : x = t0 :=
                    huniq x hx t0 ht0mem (hid.trans ht0id.symm)
                  subst hxt0
                  rw [← hax]
                  exact applyUpd_dropProg_inv ureq d x heq (hinv x hx)
                · rw [if_neg hid] at hax
                  rw [← hax]
                  exact hinv x hx
            · simp at h

/-- C1 witness: a concrete `done` creation gets progress 100, and a
concrete update of the fixture task to `done` leaves every stored task
satisfying the invariant. -/
theorem claim1_witness :
    taskInv (⟨"t9", "T", none, "done", none, none, none, 100, "b1"⟩ : Task) ∧
    taskInv (⟨"t1", "Buy milk", none, "done", none, none, none, 100, "b1"⟩ : Task) :=
  ⟨(claim1_status_progress_invariant stW
      (createTask stW "u1" "b1"
        ⟨some "T", none, some "done", none, none, none, some (some 30)⟩ "t9").2
      stW "u1" "b1" "t1" "t9"
      ⟨some "T", none, some "done", none, none, none, some (some 30)⟩
      ⟨none, none, some "done", none, none, none, none⟩).1
    (by decide) ⟨"t9", "T", none, "done", none, none, none, 100, "b1"⟩
    (by decide) (by decide),
   (claim1_status_progress_invariant stW stW
      (updateTask stW "u1" "t1"
        ⟨none, none, some "done", none, none, none, none⟩).2
      "u1" "b1" "t1" "t9"
      ⟨some "T", none, some "done", none, none, none, some (some 30)⟩
      ⟨none, none, some "done", none, none, none, none⟩).2
    (by decide) (by decide) (by decide)
    ⟨"t1", "Buy milk", none, "done", none, none, none, 100, "b1"⟩ (by decide)⟩

/-- C2 counterexample: a board-update request by a non-owner that omits
the new name is rejected with 400 — an error, but neither 403 nor 404 as
the claim states. The board state is still unchanged. -/
theorem claim2_cex :
    stW.boards.find? (fun x => x.id = "b1") = some boardW1 ∧
    boardW1.userId = "u1" ∧ ¬ ("u1" = "u2") ∧
    (updateBoard stW "u2" "b1" none).1 = 400 ∧
    ¬ (updateBoard stW "u2" "b1" none).1 = 403 ∧
    ¬ (updateBoard stW "u2" "b1" none).1 = 404 ∧
    (updateBoard stW "u2" "b1" none).2 = stW :=
  ⟨by decide, by decide, by decide, by decide, by decide, by decide, by decide⟩

/-- C2 (amended): a list, read, update or delete request by a non-owner
targeting another user's board or task returns an error — 403 or 404, or
400 when the request body itself fails validation — and leaves the store
unchanged, for every request body; the board listing never contains
another user's board. -/
theorem claim2_ownership_isolation (st : Store) (B bid tid : String)
    (b : Board) (t : Task) (name : Option String) (ureq : TaskUpdateReq)
    (hb : st.boards.find? (fun x => x.id = bid) = some b)
    (hAB : ¬ b.userId = B)
    (ht : st.tasks.find? (fun x => x.id = tid) = some t)
    (htb : t.boardId = bid) :
    (((updateBoard st B bid name).1 = 400 ∨ (updateBoard st B bid name).1 = 404) ∧
      (updateBoard st B bid name).2 = st) ∧
    deleteBoard st B bid = (404, st) ∧
    (getTasks st B bid).1 = 403 ∧
    ¬ b ∈ (getBoards st B).2 ∧
    (((updateTask st B tid ureq).1 = 400 ∨ (updateTask st B tid ureq).1 = 403) ∧
      (updateTask st B tid ureq).2 = st) ∧
    deleteTask st B tid = (403, st) := by
  refine ⟨?_, ?_, ?_, ?_, ?_, ?_⟩
  · unfold updateBoard
    cases hf : strFalsy name
    · simp [hf, hb, hAB]
    · simp [hf]
  · unfold deleteBoard
    simp [hb, hAB]
  · unfold getTasks
    simp [hb, hAB]
  · unfold getBoards
    simp only [List.mem_filter]
    intro hmem
    exact absurd (of_decide_eq_true hmem.2) hAB
  · unfold updateTask
    cases hmk : mkUpdateData ureq with
    | error c =>
      have hc := mkUpdateData_error hmk
      subst hc
      simp
    | ok d =>
      cases hie : d.isEmpty
      · simp only [hie, Bool.false_eq_true, if_false, ht, htb, hb]
        simp [hAB]
      · simp [hie]
  · unfold deleteTask
    simp only [ht, htb, hb]
    simp [hAB]

/-- C2 witness: the non-owner `u2` against the fixture board `b1` and
task `t1`, with a well-formed rename body and a title-only task update. -/
theorem claim2_witness :
    (((updateBoard stW "u2" "b1" (some "N")).1 = 400 ∨
        (updateBoard stW "u2" "b1" (some "N")).1 = 404) ∧
      (updateBoard stW "u2" "b1" (some "N")).2 = stW) ∧
    deleteBoard stW "u2" "b1" = (404, stW) ∧
    (getTasks stW "u2" "b1").1 = 403 ∧
    ¬ boardW1 ∈ (getBoards stW "u2").2 ∧
    (((updateTask stW "u2" "t1"
          ⟨some "X", none, none, none, none, none, none⟩).1 = 400 ∨
        (updateTask stW "u2" "t1"
          ⟨some "X", none, none, none, none, none, none⟩).1 = 403) ∧
      (updateTask stW "u2" "t1"
        ⟨some "X", none, none, none, none, none, none⟩).2 = stW) ∧
    deleteTask stW "u2" "t1" = (403, stW) :=
  claim2_ownership_isolation stW "u2" "b1" "t1" boardW1 taskW1 (some "N")
    ⟨some "X", none, none, none, none, none, none⟩
    (by decide) (by decide) (by decide) rfl

/-- C6 counterexample: a task update whose body carries no updatable
field is rejected with 400 before any lookup, both when the task exists
under another user's board (the claim says 403) and when the task id is
missing (the claim says 404). -/
theorem claim6_cex :
    stW.tasks.find? (fun x => x.id = "t1") = some taskW1 ∧
    stW.boards.find? (fun x => x.id = taskW1.boardId) = some boardW1 ∧
    ¬ boardW1.userId = "u2" ∧
    (updateTask stW "u2" "t1" ⟨none, none, none, none, none, none, none⟩).1
      = 400 ∧
    stW.tasks.find? (fun x => x.id = "nope") = none ∧
    (updateTask stW "u2" "nope" ⟨none, none, none, none, none, none, none⟩).1
      = 400 :=
  ⟨by decide, by decide, by decide, by decide, by decide, by decide⟩

/-- C6 (amended): given request bodies that pass input validation (a
board name for the board update, a valid title and status for task
creation, a well-formed non-empty update body for the task update),
ownership mismatch on the direct board routes answers 404, on the task
routes (nested under a board or through a task's board) 403, and a
missing board or task answers 404 on every route; bodies failing
validation answer 400 before any lookup. -/
theorem claim6_error_code_conventions (st : Store) (B bid tid nid : String)
    (name : Option String) (creq : TaskCreateReq) (ureq : TaskUpdateReq)
    (d : UpdateData)
    (hname : strFalsy name = false)
    (hctitle : strFalsy creq.title = false)
    (hcstatus : validStatuses.contains (createStatus creq.status) = true)
    (hmk : mkUpdateData ureq = .ok d) (hdne : d.isEmpty = false) :
    (∀ b, st.boards.find? (fun x => x.id = bid) = some b → ¬ b.userId = B →
      (updateBoard st B bid name).1 = 404 ∧
      (deleteBoard st B bid).1 = 404 ∧
      (getTasks st B bid).1 = 403 ∧
      (createTask st B bid creq nid).1 = 403) ∧
    (∀ t b, st.tasks.find? (fun x => x.id = tid) = some t →
      st.boards.find? (fun x => x.id = t.boardId) = some b → ¬ b.userId = B →
      (updateTask st B tid ureq).1 = 403 ∧ (deleteTask st B tid).1 = 403) ∧
    (st.boards.find? (fun x => x.id = bid) = none →
      (updateBoard st B bid name).1 = 404 ∧
      (deleteBoard st B bid).1 = 404 ∧
      (getTasks st B bid).1 = 404 ∧
      (createTask st B bid creq nid).1 = 404) ∧
    (st.tasks.find? (fun x => x.id = tid) = none →
      (updateTask st B tid ureq).1 = 404 ∧ (deleteTask st B tid).1 = 404) := by
  refine ⟨?_, ?_, ?_, ?_⟩
  · intro b hb hAB
    refine ⟨?_, ?_, ?_, ?_⟩
    · unfold updateBoard
      simp [hname, hb, hAB]
    · unfold deleteBoard
      simp [hb, hAB]
    · unfold getTasks
      simp [hb, hAB]
    · unfold createTask
      have hmem : createStatus creq.status ∈ validStatuses := by
        simpa using hcstatus
      simp [hctitle, hmem, hb, hAB]
  · intro t b ht hb hAB
    constructor
    · unfold updateTask
      simp only [hmk, hdne, Bool.false_eq_true, if_false, ht, hb]
      simp [hAB]
    · unfold deleteTask
      simp only [ht, hb]
      simp [hAB]
  · intro hb
    refine ⟨?_, ?_, ?_, ?_⟩
    · unfold updateBoard
      simp [hname, hb]
    · unfold deleteBoard
      simp [hb]
    · unfold getTasks
      simp [hb]
    · unfold createTask
      have hmem : createStatus creq.status ∈ validStatuses := by
        simpa using hcstatus
      simp [hctitle, hmem, hb]
  · intro ht
    constructor
    · unfold updateTask
      simp only [hmk, hdne, Bool.false_eq_true, if_false, ht]
    · unfold deleteTask
      simp [ht]

/-- C6 witness: `u2` against the owned fixture board `b1` and task `t1`,
and against a missing board and task id. -/
theorem claim6_witness :
    ((updateBoard stW "u2" "b1" (some "N")).1 = 404 ∧
      (deleteBoard stW "u2" "b1").1 = 404 ∧
      (getTasks stW "u2" "b1").1 = 403 ∧
      (createTask stW "u2" "b1"
        ⟨some "T", none, some "todo", none, none, none, none⟩ "t9").1 = 403) ∧
    ((updateTask stW "u2" "t1"
        ⟨some "X", none, none, none, none, none, none⟩).1 = 403 ∧
      (deleteTask stW "u2" "t1").1 = 403) ∧
    ((updateBoard stW "u2" "nope" (some "N")).1 = 404 ∧
      (deleteBoard stW "u2" "nope").1 = 404 ∧
      (getTasks stW "u2" "nope").1 = 404 ∧
      (createTask stW "u2" "nope"
        ⟨some "T", none, some "todo", none, none, none, none⟩ "t9").1 = 404) ∧
    ((updateTask stW "u2" "nope"
        ⟨some "X", none, none, none, none, none, none⟩).1 = 404 ∧
      (deleteTask stW "u2" "nope").1 = 404) :=
  ⟨(claim6_error_code_conventions stW "u2" "b1" "t1" "t9" (some "N")
      ⟨some "T", none, some "todo", none, none, none, none⟩
      ⟨some "X", none, none, none, none, none, none⟩
      (baseUpd ⟨some "X", none, none, none, none, none, none⟩)
      rfl rfl rfl rfl (by decide)).1 boardW1 (by decide) (by decide),
   (claim6_error_code_conventions stW "u2" "b1" "t1" "t9" (some "N")
      ⟨some "T", none, some "todo", none, none, none, none⟩
      ⟨some "X", none, none, none, none, none, none⟩
      (baseUpd ⟨some "X", none, none, none, none, none, none⟩)
      rfl rfl rfl rfl (by decide)).2.1 taskW1 boardW1 (by decide) (by decide)
      (by decide),
   (claim6_error_code_conventions stW "u2" "nope" "nope" "t9" (some "N")
      ⟨some "T", none, some "todo", none, none, none, none⟩
      ⟨some "X", none, none, none, none, none, none⟩
      (baseUpd ⟨some "X", none, none, none, none, none, none⟩)
      rfl rfl rfl rfl (by decide)).2.2.1 (by decide),
   (claim6_error_code_conventions stW "u2" "nope" "nope" "t9" (some "N")
      ⟨some "T", none, some "todo", none, none, none, none⟩
      ⟨some "X", none, none, none, none, none, none⟩
      (baseUpd ⟨some "X", none, none, none, none, none, none⟩)
      rfl rfl rfl rfl (by decide)).2.2.2 (by decide)⟩

/-- C4: an owner's task update that sets status to `inprogress` and
supplies no progress succeeds with 200 and stores progress 25. -/
theorem claim4_update_inprogress_defaults_25 (st : Store) (u tid : String)
    (req : TaskUpdateReq) (t : Task) (b : Board)
    (hs : req.status = some "inprogress") (hp : req.progress = none)
    (ht : st.tasks.find? (fun x => x.id = tid) = some t)
    (hb : st.boards.find? (fun x => x.id = t.boardId) = some b)
    (hown : b.userId = u) :
    (updateTask st u tid req).1 = 200 ∧
    ((updateTask st u tid req).2.tasks.find? (fun x => x.id = tid)).map
      Task.progress = some 25 ∧
    ((updateTask st u tid req).2.tasks.find? (fun x => x.id = tid)).map
      Task.status = some "inprogress" := by
  have hmk : mkUpdateData req =
      .ok { baseUpd req with status := some "inprogress", progress := some 25 } := by
    unfold mkUpdateData
    rw [hs, hp]
    simp [validStatuses]
  have hdrop : dropProg
      { baseUpd req with status := some "inprogress", progress := some 25 } t =
      { baseUpd req with status := some "inprogress", progress := some 25 } := by
    simp [dropProg]
  have hres := updateTask_ok hmk (by simp [UpdateData.isEmpty]) ht hb hown
    (by rw [hdrop]; simp [UpdateData.isEmpty])
  rw [hdrop] at hres
  rw [hres]
  refine ⟨rfl, ?_, ?_⟩ <;>
    rw [find?_map_upd (applyUpd_id _) ht] <;> rfl

/-- C4 witness: the fixture `todo` task updated to `inprogress` with no
progress lands at progress 25. -/
theorem claim4_witness :
    (updateTask stW "u1" "t1" ⟨none, none, some "inprogress", none, none, none, none⟩).1
      = 200 ∧
    ((updateTask stW "u1" "t1"
        ⟨none, none, some "inprogress", none, none, none, none⟩).2.tasks.find?
      (fun x => x.id = "t1")).map Task.progress = some 25 ∧
    ((updateTask stW "u1" "t1"
        ⟨none, none, some "inprogress", none, none, none, none⟩).2.tasks.find?
      (fun x => x.id = "t1")).map Task.status = some "inprogress" :=
  claim4_update_inprogress_defaults_25 stW "u1" "t1"
    ⟨none, none, some "inprogress", none, none, none, none⟩ taskW1 boardW1
    rfl rfl (by decide) (by decide) rfl

/-- C10: an owner's task update to status `inprogress` with an invalid
progress value (unparseable, or parseable but outside `[0,100]`) is not
rejected: it succeeds and stores progress 25; task creation with the same
invalid progress under status `inprogress` stores 0 instead. -/
theorem claim10_invalid_progress_divergence (st : Store)
    (u bid tid nid : String) (ureq : TaskUpdateReq) (creq : TaskCreateReq)
    (t : Task) (b b2 : Board) (pv : ProgVal)
    (hpv : pv = none ∨ ∃ n, pv = some n ∧ (n < 0 ∨ 100 < n)) :
    (ureq.status = some "inprogress" → ureq.progress = some pv →
      st.tasks.find? (fun x => x.id = tid) = some t →
      st.boards.find? (fun x => x.id = t.boardId) = some b →
      b.userId = u →
      (updateTask st u tid ureq).1 = 200 ∧
      ((updateTask st u tid ureq).2.tasks.find? (fun x => x.id = tid)).map
        Task.progress = some 25) ∧
    (creq.status = some "inprogress" → creq.progress = some pv →
      strFalsy creq.title = false →
      st.boards.find? (fun x => x.id = bid) = some b2 →
      b2.userId = u →
      (createTask st u bid creq nid).1 = 201 ∧
      ((createTask st u bid creq nid).2.tasks.getLast?).map
        Task.progress = some 0) := by
  constructor
  · intro hs hp ht hb hown
    have hmk : mkUpdateData ureq =
        .ok { baseUpd ureq with status := some "inprogress", progress := some 25 } := by
      unfold mkUpdateData
      rw [hs, hp]
      rcases hpv with rfl | ⟨n, rfl, hn⟩
      · simp [validStatuses]
      · have hno : ¬ (0 ≤ n ∧ n ≤ 100) := by omega
        simp [validStatuses, hno]
    have hdrop : dropProg
        { baseUpd ureq with status := some "inprogress", progress := some 25 } t =
        { baseUpd ureq with status := some "inprogress", progress := some 25 } := by
      simp [dropProg]
    have hres := updateTask_ok hmk (by simp [UpdateData.isEmpty]) ht hb hown
      (by rw [hdrop]; simp [UpdateData.isEmpty])
    rw [hdrop] at hres
    rw [hres]
    refine ⟨rfl, ?_⟩
    rw [find?_map_upd (applyUpd_id _) ht]
    rfl
  · intro hs hp htitle hb hown
    have hvalid : validStatuses.contains (createStatus creq.status) = true := by
      rw [hs]; decide
    have hprog : createProg (createStatus creq.status) creq.progress = 0 := by
      rw [hs, hp]
      show createProg "inprogress" (some pv) = 0
      rcases hpv with rfl | ⟨n, rfl, hn⟩
      · simp [createProg]
      · have hno : ¬ (0 ≤ n ∧ n ≤ 100) := by omega
        simp [createProg, hno]
    rw [createTask_ok htitle hvalid hb hown]
    refine ⟨rfl, ?_⟩
    simp [List.getLast?_concat, hprog]

/-- C10 witness: updating the fixture task to `inprogress` with progress
parsing to 200 stores 25, while creating a task that way stores 0. -/
theorem claim10_witness :
    (updateTask stW "u1" "t1"
        ⟨none, none, some "inprogress", none, none, none, some (some 200)⟩).1
      = 200 ∧
    ((updateTask stW "u1" "t1"
        ⟨none, none, some "inprogress", none, none, none, some (some 200)⟩).2.tasks.find?
      (fun x => x.id = "t1")).map Task.progress = some 25 :=
  (claim10_invalid_progress_divergence stW "u1" "b1" "t1" "t9"
    ⟨none, none, some "inprogress", none, none, none, some (some 200)⟩
    ⟨some "T", none, some "inprogress", none, none, none, some (some 200)⟩
    taskW1 boardW1 boardW1 (some 200)
    (Or.inr ⟨200, rfl, by omega⟩)).1 rfl rfl (by decide) (by decide) rfl

/-- C5 counterexample: a request that supplies only a (valid) progress
value, no status and nothing else, against a task whose current status is
not `inprogress`, does not succeed — after the dropped progress the
update data is empty and the route answers 400, not 200. -/
theorem claim5_cex :
    stW.tasks.find? (fun x => x.id = "t1") = some taskW1 ∧
    ¬ taskW1.status = "inprogress" ∧
    boardW1.userId = "u1" ∧
    updateTask stW "u1" "t1" ⟨none, none, none, none, none, none, some (some 50)⟩
      = (400, stW) :=
  ⟨by decide, by decide, by decide, by decide⟩

/-- C5 (amended): when the owner supplies a progress value that parses to
an integer in `[0,100]`, no status, and at least one other updatable
field, while the task's current status is not `inprogress`, the request
succeeds, the stored progress and status are unchanged, and the other
supplied fields are applied; a request carrying only the progress field
is instead rejected with 400. -/
theorem claim5_progress_silently_dropped (st : Store) (u tid : String)
    (req : TaskUpdateReq) (t : Task) (b : Board) (n : Int)
    (hs : req.status = none) (hp : req.progress = some (some n))
    (hn : 0 ≤ n ∧ n ≤ 100)
    (hother : ¬ req.title = none ∨ ¬ req.description = none ∨
      ¬ req.startDate = none ∨ ¬ req.estimatedFinishDate = none ∨
      ¬ req.reminderDateTime = none)
    (ht : st.tasks.find? (fun x => x.id = tid) = some t)
    (hb : st.boards.find? (fun x => x.id = t.boardId) = some b)
    (hown : b.userId = u)
    (hcur : ¬ t.status = "inprogress") :
    (updateTask st u tid req).1 = 200 ∧
    ((updateTask st u tid req).2.tasks.find? (fun x => x.id = tid)) =
      some (applyUpd (baseUpd req) t) ∧
    (applyUpd (baseUpd req) t).progress = t.progress ∧
    (applyUpd (baseUpd req) t).status = t.status ∧
    (applyUpd (baseUpd req) t).title = req.title.getD t.title ∧
    (applyUpd (baseUpd req) t).description = req.description.getD t.description := by
  have hmk : mkUpdateData req = .ok { baseUpd req with progress := some n } := by
    unfold mkUpdateData
    rw [hs, hp]
    simp [hn]
  have hdrop : dropProg { baseUpd req with progress := some n } t
      = baseUpd req := by
    simp [dropProg, baseUpd, hcur]
  have hempty : (baseUpd req).isEmpty = false := by
    rcases hother with h | h | h | h | h
    · cases hv : req.title with
      | none => exact absurd hv h
      | some v => simp [UpdateData.isEmpty, baseUpd, hv]
    · cases hv : req.description with
      | none => exact absurd hv h
      | some v => simp [UpdateData.isEmpty, baseUpd, hv]
    · cases hv : req.startDate with
      | none => exact absurd hv h
      | some v => simp [UpdateData.isEmpty, baseUpd, hv]
    · cases hv : req.estimatedFinishDate with
      | none => exact absurd hv h
      | some v => simp [UpdateData.isEmpty, baseUpd, hv]
    · cases hv : req.reminderDateTime with
      | none => exact absurd hv h
      | some v => simp [UpdateData.isEmpty, baseUpd, hv]
  have hres := updateTask_ok hmk (by simp [UpdateData.isEmpty]) ht hb hown
    (by rw [hdrop]; exact hempty)
  rw [hdrop] at hres
  rw [hres]
  exact ⟨rfl, find?_map_upd (applyUpd_id _) ht, rfl, rfl, rfl, rfl⟩

/-- C5 witness: supplying progress 60 and a new title to the fixture
`todo` task keeps progress 0 and status `todo` while the title changes. -/
theorem claim5_witness :
    (updateTask stW "u1" "t1"
        ⟨some "New", none, none, none, none, none, some (some 60)⟩).1 = 200 ∧
    ((updateTask stW "u1" "t1"
        ⟨some "New", none, none, none, none, none, some (some 60)⟩).2.tasks.find?
      (fun x => x.id = "t1")) =
      some (applyUpd
        (baseUpd ⟨some "New", none, none, none, none, none, some (some 60)⟩)
        taskW1) ∧
    (applyUpd (baseUpd ⟨some "New", none, none, none, none, none, some (some 60)⟩)
      taskW1).progress = taskW1.progress ∧
    (applyUpd (baseUpd ⟨some "New", none, none, none, none, none, some (some 60)⟩)
      taskW1).status = taskW1.status ∧
    (applyUpd (baseUpd ⟨some "New", none, none, none, none, none, some (some 60)⟩)
      taskW1).title = (some "New").getD taskW1.title ∧
    (applyUpd (baseUpd ⟨some "New", none, none, none, none, none, some (some 60)⟩)
      taskW1).description = (none : Option (Option String)).getD taskW1.description :=
  claim5_progress_silently_dropped stW "u1" "t1"
    ⟨some "New", none, none, none, none, none, some (some 60)⟩ taskW1 boardW1 60
    rfl rfl (by omega) (Or.inl (by decide)) (by decide) (by decide) rfl (by decide)

/-- C7 counterexample: the claim quantifies over every supplied password,
but supplying the empty string as the password makes the login route
answer 400 (`Email and password are required.`), not 401, even though the
targeted account is OAuth-only (empty password hash). -/
theorem claim7_cex :
    stW.users.find? (fun x => x.email = "o@b.c") = some userW2 ∧
    userW2.passwordHash = "" ∧
    login (fun _ _ => false) stW (some "o@b.c") (some "") = 400 := by
  exact ⟨by decide, by decide, by decide⟩

/-- C7 (amended): a login request targeting a user whose password hash is
the empty string answers 401 for every non-empty supplied password,
whatever `bcrypt.compare` would say. -/
theorem claim7_login_oauth_rejected (compare : String → String → Bool)
    (st : Store) (e p : String) (u : User)
    (he : ¬ e = "") (hp : ¬ p = "")
    (hu : st.users.find? (fun x => x.email = e) = some u)
    (hhash : u.passwordHash = "") :
    login compare st (some e) (some p) = 401 := by
  unfold login
  have h1 : (strFalsy (some e) || strFalsy (some p)) = false := by
    simp [strFalsy, he, hp]
  rw [h1]
  simp only [Bool.false_eq_true, if_false, Option.getD_some, hu, hhash]
  simp

/-- C7 witness: a strength-valid password against the OAuth-only fixture
account still gets 401. -/
theorem claim7_witness :
    login (fun _ _ => false) stW (some "o@b.c") (some "Xy1aaaaa") = 401 :=
  claim7_login_oauth_rejected (fun _ _ => false) stW "o@b.c" "Xy1aaaaa" userW2
    (by decide) (by decide) (by decide) (by decide)

/-- C8: on a bearer-authenticated route, a missing bearer token answers
401 and a present token that fails verification (bad signature or
expired) answers 403; in both cases the delegated store operation never
runs — the store is returned unchanged for every handler. -/
theorem claim8_auth_gate (verify : String → Option Payload)
    (handler : Payload → Store → Nat × Store) (st : Store)
    (authHeader : Option String) :
    (tokenOf authHeader = none →
      withAuth verify authHeader handler st = (401, st)) ∧
    (∀ t, tokenOf authHeader = some t → verify t = none →
      withAuth verify authHeader handler st = (403, st)) := by
  constructor
  · intro h
    unfold withAuth authenticateToken
    rw [h]
  · intro t ht hv
    unfold withAuth authenticateToken
    rw [ht]
    simp only [hv]

/-- C8 witness: an absent header gets 401, a well-formed header whose
token fails verification gets 403, and the fixture store is untouched. -/
theorem claim8_witness :
    withAuth (fun _ => none) none (fun _ s => (200, s)) stW = (401, stW) ∧
    withAuth (fun _ => none) (some "") (fun _ s => (200, s)) stW
      = (403, stW) :=
  ⟨(claim8_auth_gate (fun _ => none) (fun _ s => (200, s)) stW none).1 rfl,
   (claim8_auth_gate (fun _ => none) (fun _ s => (200, s)) stW
      (some "")).2 "" rfl rfl⟩

/-- C9: after a successful board deletion (204), no task with the deleted
board's id remains in the store (`onDelete: Cascade`). -/
theorem claim9_delete_board_cascades (st : Store) (u bid : String)
    (st2 : Store) (h : deleteBoard st u bid = (204, st2)) :
    ∀ t ∈ st2.tasks, ¬ t.boardId = bid := by
  unfold deleteBoard at h
  split at h
  · simp at h
  · split at h
    · rw [Prod.mk.injEq] at h
      rw [← h.2]
      intro t ht
      simp only [List.mem_filter] at ht
      simpa using ht.2
    · simp at h

/-- C9 witness: deleting the fixture board `b1` leaves only the task of
the other board. -/
theorem claim9_witness : ¬ taskW2.boardId = "b1" :=
  claim9_delete_board_cascades stW "u1" "b1" (deleteBoard stW "u1" "b1").2
    (by decide) taskW2 (by decide)

end TaskCircuit
